import Mathlib

/-
Verification of the GeoImage "BIM Model from image" geometry, export and
calibration engine.

The development shallowly embeds the engine's TypeScript source:
  * src/utils/exportUtils.ts — transformVertex, getPrimitiveGeometry,
    hexToACI, create3DFace, exportToOBJ, exportToDXF;
  * src/App.tsx — handleExport's pre-multiplication of each primitive's
    position and scale by the global scale factor;
  * src/components/Viewer3D.tsx — the calibration engine
    (handlePointSelect, currentDistance, applyCalibration) and the picking
    geometry of PrimitiveMesh.
JavaScript numbers are embedded as real numbers; text serialization is
embedded structurally: an OBJ file is a list of its lines, a DXF file a
record of its sections, keeping every name, index, color number and vertex
the source writes, while decimal formatting (toFixed(6)) is abstracted
away.  Strings that the source compares or parses (primitive kind tags,
hex colors, layer names) are kept as strings.
-/

namespace GeoImage

/-- A 3D vector, as the source's [x, y, z] number triples. -/
structure Vec3 where
  x : ℝ
  y : ℝ
  z : ℝ

/-- A primitive descriptor (src/types.ts `Primitive`).  The `type` field is
the runtime string tag of the `PrimitiveType` enum ("BOX", "CYLINDER",
"PYRAMID", "SPHERE"); data arriving from the inference service may carry any
other string, which is what the tessellator's default branch receives. -/
structure Primitive where
  type : String
  position : Vec3
  rotation : Vec3
  scale : Vec3
  color : String

/-- A model (src/types.ts `ModelData`): the ordered list of primitives. -/
structure ModelData where
  primitives : List Primitive

/-- Componentwise scaling of a vector by a scalar on the right, as the
source's `p.position.map(v => v * state.globalScale)`. -/
def vscale (v : Vec3) (g : ℝ) : Vec3 :=
  ⟨v.x * g, v.y * g, v.z * g⟩

/-- transformVertex (src/utils/exportUtils.ts lines 24-49): scale each axis
by the primitive's per-axis scale, rotate about X, then Y, then Z by the
primitive's rotation angles (radians, used raw), then translate by the
primitive's position.  The sequential lets mirror the source's mutable
updates: rotation Y reads the x scaled value and the z output of rotation X;
rotation Z reads the x output of rotation Y and the y output of rotation X. -/
noncomputable def transformVertex (v : Vec3) (p : Primitive) : Vec3 :=
  let x := v.x * p.scale.x
  let y := v.y * p.scale.y
  let z := v.z * p.scale.z
  let y1 := y * Real.cos p.rotation.x - z * Real.sin p.rotation.x
  let z1 := y * Real.sin p.rotation.x + z * Real.cos p.rotation.x
  let x2 := x * Real.cos p.rotation.y + z1 * Real.sin p.rotation.y
  let z2 := -x * Real.sin p.rotation.y + z1 * Real.cos p.rotation.y
  let x3 := x2 * Real.cos p.rotation.z - y1 * Real.sin p.rotation.z
  let y3 := x2 * Real.sin p.rotation.z + y1 * Real.cos p.rotation.z
  ⟨x3 + p.position.x, y3 + p.position.y, z2 + p.position.z⟩

/-- handleExport's scaled primitive (src/App.tsx lines 120-127): position
and scale multiplied componentwise by the global scale factor, rotation and
everything else untouched, before the exporters run. -/
def applyGlobalScale (g : ℝ) (p : Primitive) : Primitive :=
  { p with position := vscale p.position g, scale := vscale p.scale g }

/-- handleExport's scaled model (src/App.tsx lines 120-127). -/
def scaledModel (g : ℝ) (m : ModelData) : ModelData :=
  ⟨m.primitives.map (applyGlobalScale g)⟩

/-- Standard right-handed rotation of a vector about the X axis. -/
noncomputable def rotXv (t : ℝ) (v : Vec3) : Vec3 :=
  ⟨v.x, v.y * Real.cos t - v.z * Real.sin t, v.y * Real.sin t + v.z * Real.cos t⟩

/-- Standard right-handed rotation of a vector about the Y axis. -/
noncomputable def rotYv (t : ℝ) (v : Vec3) : Vec3 :=
  ⟨v.x * Real.cos t + v.z * Real.sin t, v.y, -v.x * Real.sin t + v.z * Real.cos t⟩

/-- Standard right-handed rotation of a vector about the Z axis. -/
noncomputable def rotZv (t : ℝ) (v : Vec3) : Vec3 :=
  ⟨v.x * Real.cos t - v.y * Real.sin t, v.x * Real.sin t + v.y * Real.cos t, v.z⟩

/-- Componentwise product of two vectors. -/
def vmul (a b : Vec3) : Vec3 :=
  ⟨a.x * b.x, a.y * b.y, a.z * b.z⟩

/-- Vector addition. -/
def vadd (a b : Vec3) : Vec3 :=
  ⟨a.x + b.x, a.y + b.y, a.z + b.z⟩

/-- Transform pipeline written from the spec's words (section 4.2), for
comparison with the code's pipeline: (1) multiply each axis componentwise by
primitive.scale times global_scale, (2) rotate about X by rotation.x, then
about Y by rotation.y, then about Z by rotation.z, each a standard
right-handed rotation, in that fixed order, (3) translate by
primitive.position times global_scale. -/
noncomputable def specTransform (v : Vec3) (p : Primitive) (g : ℝ) : Vec3 :=
  vadd
    (rotZv p.rotation.z (rotYv p.rotation.y (rotXv p.rotation.x
      (vmul v (vscale p.scale g)))))
    (vscale p.position g)

/-- A tessellated geometry (the `{ vertices, faces }` record that
getPrimitiveGeometry returns): world-space vertices and faces as groups of
0-based indices into the vertex list. -/
structure Geometry where
  vertices : List Vec3
  faces : List (List ℕ)

/-- Unit-space corners of the box case (src/utils/exportUtils.ts line 73). -/
def boxUnit : List Vec3 :=
  [⟨-0.5, -0.5, -0.5⟩, ⟨0.5, -0.5, -0.5⟩, ⟨0.5, 0.5, -0.5⟩, ⟨-0.5, 0.5, -0.5⟩,
   ⟨-0.5, -0.5, 0.5⟩, ⟨0.5, -0.5, 0.5⟩, ⟨0.5, 0.5, 0.5⟩, ⟨-0.5, 0.5, 0.5⟩]

/-- Face index groups of the box case (line 77). -/
def boxFaces : List (List ℕ) :=
  [[0, 1, 2, 3], [4, 7, 6, 5], [0, 4, 5, 1], [1, 5, 6, 2], [2, 6, 7, 3], [3, 7, 4, 0]]

/-- Unit-space vertices of the cylinder case (lines 81-93): 16 bottom-rim
vertices, 16 top-rim vertices, bottom center, top center.  The angle of rim
vertex i is (i / 16) * pi * 2. -/
noncomputable def cylUnit : List Vec3 :=
  ((List.range 16).map (fun i =>
    ⟨0.5 * Real.cos ((i : ℝ) / 16 * Real.pi * 2), -0.5,
     0.5 * Real.sin ((i : ℝ) / 16 * Real.pi * 2)⟩))
  ++ ((List.range 16).map (fun i =>
    ⟨0.5 * Real.cos ((i : ℝ) / 16 * Real.pi * 2), 0.5,
     0.5 * Real.sin ((i : ℝ) / 16 * Real.pi * 2)⟩))
  ++ [⟨0, -0.5, 0⟩, ⟨0, 0.5, 0⟩]

/-- Face index groups of the cylinder case (lines 95-100): per rim segment i
(with n the next segment and 32, 33 the bottom and top center indices) a side
quad, a bottom-cap triangle and a top-cap triangle, in the source's push
order. -/
def cylFaces : List (List ℕ) :=
  (List.range 16).flatMap (fun i =>
    let n := (i + 1) % 16
    [[i, n, n + 16, i + 16], [i, 32, n], [i + 16, n + 16, 33]])

/-- Unit-space vertices of the pyramid case (lines 104-105): 4 base corners
and the apex. -/
def pyrUnit : List Vec3 :=
  [⟨-0.5, -0.5, -0.5⟩, ⟨0.5, -0.5, -0.5⟩, ⟨0.5, -0.5, 0.5⟩, ⟨-0.5, -0.5, 0.5⟩,
   ⟨0, 0.5, 0⟩]

/-- Face index groups of the pyramid case (lines 106-107). -/
def pyrFaces : List (List ℕ) :=
  [[0, 1, 2, 3], [0, 4, 1], [1, 4, 2], [2, 4, 3], [3, 4, 0]]

/-- Unit-space vertices of the sphere case (lines 111-119): a latitude by
longitude grid with latR = 8 and lonR = 12, latitudes 0..8 and longitudes
0..12 inclusive. -/
noncomputable def sphUnit : List Vec3 :=
  (List.range 9).flatMap (fun lat =>
    (List.range 13).map (fun lon =>
      let th := (lat : ℝ) * Real.pi / 8
      let ph := (lon : ℝ) * 2 * Real.pi / 12
      ⟨0.5 * Real.cos ph * Real.sin th, 0.5 * Real.cos th,
       0.5 * Real.sin ph * Real.sin th⟩))

/-- Face index groups of the sphere case (lines 120-126): one quad per grid
cell, with row stride lonR + 1 = 13. -/
def sphFaces : List (List ℕ) :=
  (List.range 8).flatMap (fun lat =>
    (List.range 12).map (fun lon =>
      let f := lat * 13 + lon
      let s := f + 13
      [f, s, s + 1, f + 1]))

/-- Unit-space vertices of the default (unrecognized kind) branch (line
130): two opposite corners only, and no faces are pushed. -/
def fallbackUnit : List Vec3 :=
  [⟨-0.5, -0.5, -0.5⟩, ⟨0.5, 0.5, 0.5⟩]

/-- getPrimitiveGeometry (src/utils/exportUtils.ts lines 67-134): switch on
the primitive's kind tag; each case pushes its unit-space vertices through
transformVertex and its face index groups; the default branch silently
pushes the two-corner fallback with no faces and raises no error. -/
noncomputable def getPrimitiveGeometry (p : Primitive) : Geometry :=
  if p.type = "BOX" then
    ⟨boxUnit.map (fun v => transformVertex v p), boxFaces⟩
  else if p.type = "CYLINDER" then
    ⟨cylUnit.map (fun v => transformVertex v p), cylFaces⟩
  else if p.type = "PYRAMID" then
    ⟨pyrUnit.map (fun v => transformVertex v p), pyrFaces⟩
  else if p.type = "SPHERE" then
    ⟨sphUnit.map (fun v => transformVertex v p), sphFaces⟩
  else
    ⟨fallbackUnit.map (fun v => transformVertex v p), []⟩

/-- Vertex count of a primitive's tessellated geometry. -/
noncomputable def geomVertCount (p : Primitive) : ℕ :=
  (getPrimitiveGeometry p).vertices.length

/-- Total vertex count of a list of primitives, in order. -/
noncomputable def vertTotal (ps : List Primitive) : ℕ :=
  (ps.map geomVertCount).sum

/-- One line of the OBJ output, structurally: the header comment, a `g`
group line, a `v` vertex line (the formatted coordinates kept as the
vector), or an `f` face line (its written 1-based index list). -/
inductive ObjLine where
  | comment (text : String)
  | group (name : String)
  | vtx (v : Vec3)
  | face (indices : List ℕ)

/-- The index list written for one face line (src/utils/exportUtils.ts lines
143-146): each local index plus the running vertex offset; three indices
when the face has exactly three, else four. -/
def objFaceIdx (f : List ℕ) (off : ℕ) : List ℕ :=
  if f.length = 3 then
    [f.getD 0 0 + off, f.getD 1 0 + off, f.getD 2 0 + off]
  else
    [f.getD 0 0 + off, f.getD 1 0 + off, f.getD 2 0 + off, f.getD 3 0 + off]

/-- The OBJ lines the forEach body of exportToOBJ (lines 139-148) emits:
per primitive a group line named by 1-based position and kind, its vertex
lines, then its face lines with the running 1-based vertex offset, which
then grows by the primitive's vertex count. -/
noncomputable def objBody : List Primitive → ℕ → ℕ → List ObjLine
  | [], _, _ => []
  | p :: rest, i, vOffset =>
    let g := getPrimitiveGeometry p
    (ObjLine.group ("Pieza_" ++ toString (i + 1) ++ "_" ++ p.type)
      :: g.vertices.map ObjLine.vtx)
    ++ g.faces.map (fun f => ObjLine.face (objFaceIdx f vOffset))
    ++ objBody rest (i + 1) (vOffset + g.vertices.length)

/-- exportToOBJ (src/utils/exportUtils.ts lines 136-150): the header
comment, then the per-primitive bodies starting at index 0 and vertex
offset 1. -/
noncomputable def exportToOBJ (m : ModelData) : List ObjLine :=
  ObjLine.comment "GeoImage Export - High Fidelity BIM Mesh"
    :: objBody m.primitives 0 1

/-- The face index lists of an OBJ line list, in order. -/
def objFaceLines : List ObjLine → List (List ℕ)
  | [] => []
  | ObjLine.face f :: rest => f :: objFaceLines rest
  | _ :: rest => objFaceLines rest

/-- Value of one hexadecimal digit character, or none. -/
def hexDigitVal (c : Char) : Option ℕ :=
  if '0' ≤ c ∧ c ≤ '9' then some (c.toNat - 48)
  else if 'a' ≤ c ∧ c ≤ 'f' then some (c.toNat - 87)
  else if 'A' ≤ c ∧ c ≤ 'F' then some (c.toNat - 55)
  else none

/-- Accumulate further hexadecimal digits, stopping at the first non-digit
(as parseInt does). -/
def hexAccum : List Char → ℕ → ℕ
  | [], acc => acc
  | c :: rest, acc =>
    match hexDigitVal c with
    | none => acc
    | some d => hexAccum rest (acc * 16 + d)

/-- parseInt(s, 16) for the plain two-character slices hexToACI feeds it:
the value of the longest hexadecimal-digit prefix, or none (NaN) when the
first character is not a hexadecimal digit. -/
def parseIntHex (cs : List Char) : Option ℕ :=
  match cs with
  | [] => none
  | c :: rest => (hexDigitVal c).map (fun d => hexAccum rest d)

/-- The slice hex.slice(a, a+2) as a character list. -/
def slice2 (s : String) (a : ℕ) : List Char :=
  (s.toList.drop a).take 2

/-- hexToACI (src/utils/exportUtils.ts lines 7-19): read the r, g, b bytes
of a `#rrggbb` string (a failed parse falls back to 0 via `|| 0`) and map
to one of the 7 base AutoCAD Color Index values by dominant channel,
defaulting to 7. -/
def hexToACI (hex : String) : ℕ :=
  let r := (parseIntHex (slice2 hex 1)).getD 0
  let g := (parseIntHex (slice2 hex 3)).getD 0
  let b := (parseIntHex (slice2 hex 5)).getD 0
  if 180 < r ∧ g < 100 ∧ b < 100 then 1
  else if 180 < r ∧ 180 < g ∧ b < 100 then 2
  else if 180 < g ∧ r < 100 ∧ b < 100 then 3
  else if 180 < g ∧ 180 < b ∧ r < 100 then 4
  else if 180 < b ∧ r < 100 ∧ g < 100 then 5
  else if 180 < r ∧ 180 < b ∧ g < 100 then 6
  else 7

/-- One LAYER record of the DXF TABLES section, structurally: the group
codes 2 (name), 70 (flags), 62 (color number), 6 (linetype) that the source
writes for each layer. -/
structure DxfLayerRec where
  name : String
  flags : ℕ
  colorNum : ℕ
  linetype : String

/-- One 3DFACE entity of the DXF ENTITIES section, structurally: layer tag
(group 8), color number (group 62) and the four corner points (groups
10/20/30 .. 13/23/33, formatting abstracted). -/
structure Dxf3DFaceEnt where
  layer : String
  colorNum : ℕ
  p1 : Vec3
  p2 : Vec3
  p3 : Vec3
  p4 : Vec3

/-- create3DFace (src/utils/exportUtils.ts lines 54-62): a triangle repeats
its third point as the fourth (`const p4 = v4 || v3`). -/
def create3DFace (v1 v2 v3 : Vec3) (v4 : Option Vec3) (layer : String)
    (color : ℕ) : Dxf3DFaceEnt :=
  { layer := layer, colorNum := color, p1 := v1, p2 := v2, p3 := v3,
    p4 := v4.getD v3 }

/-- The LAYER records the first forEach of exportToDXF (lines 158-160)
writes, one per primitive from position idx on: name PIEZA_(idx+1), flags
70 = 64, color 62 = 7 always, linetype CONTINUOUS. -/
def dxfLayerTable : List Primitive → ℕ → List DxfLayerRec
  | [], _ => []
  | _ :: rest, idx =>
    ⟨"PIEZA_" ++ toString (idx + 1), 64, 7, "CONTINUOUS"⟩
      :: dxfLayerTable rest (idx + 1)

/-- Zero vector, standing for the unreachable out-of-bounds vertex read
(every face index is in bounds; see the index-bounds theorem). -/
def vzero : Vec3 := ⟨0, 0, 0⟩

/-- The 3DFACE entities the second forEach of exportToDXF (lines 164-176)
writes from position idx on: per primitive, per face, the face's first
three vertices, its fourth when it has one, the primitive's layer name and
its hexToACI color. -/
noncomputable def dxfEntities : List Primitive → ℕ → List Dxf3DFaceEnt
  | [], _ => []
  | p :: rest, idx =>
    let layer := "PIEZA_" ++ toString (idx + 1)
    let color := hexToACI p.color
    let g := getPrimitiveGeometry p
    g.faces.map (fun f =>
      create3DFace (g.vertices.getD (f.getD 0 0) vzero)
        (g.vertices.getD (f.getD 1 0) vzero)
        (g.vertices.getD (f.getD 2 0) vzero)
        (if 3 < f.length then some (g.vertices.getD (f.getD 3 0) vzero)
         else none)
        layer color)
    ++ dxfEntities rest (idx + 1)

/-- The DXF document, structurally: the declared AutoCAD version of the
HEADER section, the LAYER records of the TABLES section, and the 3DFACE
entities of the ENTITIES section, in the order written. -/
structure DxfDoc where
  acadVersion : String
  layers : List DxfLayerRec
  entities : List Dxf3DFaceEnt

/-- exportToDXF (src/utils/exportUtils.ts lines 152-180): the fixed AC1009
header, one LAYER record per primitive, then the per-primitive 3DFACE
entities. -/
noncomputable def exportToDXF (m : ModelData) : DxfDoc :=
  { acadVersion := "AC1009",
    layers := dxfLayerTable m.primitives 0,
    entities := dxfEntities m.primitives 0 }

/-- The calibration-relevant state of the Viewer3D component
(src/components/Viewer3D.tsx lines 86-94): the global scale factor owned by
App, the picked points, the text field's parsed numeric value (none models
parseFloat returning NaN on a non-numeric input) and the measure-mode
flag. -/
structure CalState where
  globalScale : ℝ
  points : List Vec3
  userInput : Option ℝ
  isMeasureMode : Bool

/-- distanceTo of three.js Vector3: the Euclidean distance used by
currentDistance. -/
noncomputable def dist3 (a b : Vec3) : ℝ :=
  Real.sqrt ((a.x - b.x) * (a.x - b.x) + (a.y - b.y) * (a.y - b.y)
    + (a.z - b.z) * (a.z - b.z))

/-- currentDistance (src/components/Viewer3D.tsx lines 91-94): 0 with fewer
than two points, else the distance between the first two. -/
noncomputable def currentDistance (s : CalState) : ℝ :=
  match s.points with
  | a :: b :: _ => dist3 a b
  | _ => 0

/-- applyCalibration (src/components/Viewer3D.tsx lines 105-114): reject a
non-numeric, non-positive target or a zero measured distance by returning
unchanged state; otherwise divide the measured distance by the old scale
and set the new scale to target / rawDistance, clearing the points, the
input and measure mode. -/
noncomputable def applyCalibration (s : CalState) : CalState :=
  match s.userInput with
  | none => s
  | some targetVal =>
    if targetVal ≤ 0 ∨ currentDistance s = 0 then s
    else
      let rawDistance := currentDistance s / s.globalScale
      let newScale := targetVal / rawDistance
      { globalScale := newScale, points := [], userInput := none,
        isMeasureMode := false }

/-- handlePointSelect (src/components/Viewer3D.tsx lines 96-103): outside
measure mode ignore the pick; with two points already recorded start over
with the new point; otherwise append it.  The raw intersection point is
stored as given. -/
def handlePointSelect (s : CalState) (point : Vec3) : CalState :=
  if s.isMeasureMode = false then s
  else if 2 ≤ s.points.length then { s with points := [point] }
  else { s with points := s.points ++ [point] }

/-- World position of a unit-geometry vertex of PrimitiveMesh
(src/components/Viewer3D.tsx lines 44-73): the group carries
position * globalScale and the raw Euler rotation (three.js XYZ order,
innermost Z), the mesh carries scale * globalScale. -/
noncomputable def viewerWorldVertex (p : Primitive) (g : ℝ) (v : Vec3) : Vec3 :=
  vadd (rotXv p.rotation.x (rotYv p.rotation.y (rotZv p.rotation.z
    (vmul v (vscale p.scale g))))) (vscale p.position g)

/-- The corner positions of the viewer's unit boxGeometry for a BOX
primitive, transformed to world space as PrimitiveMesh renders them. -/
noncomputable def viewerBoxVertices (p : Primitive) (g : ℝ) : List Vec3 :=
  boxUnit.map (viewerWorldVertex p g)

/-- Componentwise division of a vector by a scalar. -/
noncomputable def vdiv (v : Vec3) (k : ℝ) : Vec3 :=
  ⟨v.x / k, v.y / k, v.z / k⟩

/-- A primitive with position and scale divided by k (the spec's "p with
position/scale divided by k"). -/
noncomputable def divPrimitive (p : Primitive) (k : ℝ) : Primitive :=
  { p with position := vdiv p.position k, scale := vdiv p.scale k }

/-- The demo BOX primitive pose used as a concrete test input. -/
def boxP : Primitive :=
  ⟨"BOX", ⟨0, 0, 0⟩, ⟨0, 0, 0⟩, ⟨1, 1, 1⟩, "#3b82f6"⟩

/-- Componentwise characterization of Vec3 equality, used to split vector
goals into per-axis arithmetic. -/
lemma vec3_eq (a b c d e f : ℝ) (h1 : a = d) (h2 : b = e) (h3 : c = f) :
    (⟨a, b, c⟩ : Vec3) = ⟨d, e, f⟩ := by
  rw [h1, h2, h3]

/-- A red BOX primitive, whose hex color maps to AutoCAD Color Index 1. -/
def redBoxP : Primitive :=
  ⟨"BOX", ⟨0, 0, 0⟩, ⟨0, 0, 0⟩, ⟨1, 1, 1⟩, "#ff0000"⟩

/-- Claim C4: for every unit-space vertex and primitive, the exported
world-space vertex is produced by exactly the order scale (by
primitive.scale times global_scale, componentwise), then rotate about X,
then Y, then Z by the raw radian angles with standard right-handed
rotations, then translate by primitive.position times global_scale; and the
global scale leaves the rotation angles untouched (no clamping or
normalization happens anywhere on the path). -/
theorem transform_pipeline_order (v : Vec3) (p : Primitive) (g : ℝ) :
    transformVertex v (applyGlobalScale g p) = specTransform v p g
    ∧ (applyGlobalScale g p).rotation = p.rotation := by
  refine ⟨?_, rfl⟩
  simp only [transformVertex, applyGlobalScale, specTransform, vmul, vadd,
    vscale, rotXv, rotYv, rotZv]

/-- Counterexample to claim C9 as stated: at the unit vertex (1,0,0), an
axis-aligned unit-scale primitive and k = 2, transforming under global
scale 2 gives (2,0,0), while 2 times the transform at global scale 1 of the
primitive with position and scale divided by 2 gives (1,0,0). -/
theorem transform_divided_scale_counterexample :
    transformVertex ⟨1, 0, 0⟩
        (applyGlobalScale 2 ⟨"BOX", ⟨0, 0, 0⟩, ⟨0, 0, 0⟩, ⟨1, 1, 1⟩, "#fff"⟩)
      ≠ vscale (transformVertex ⟨1, 0, 0⟩
          (applyGlobalScale 1
            (divPrimitive ⟨"BOX", ⟨0, 0, 0⟩, ⟨0, 0, 0⟩, ⟨1, 1, 1⟩, "#fff"⟩ 2))) 2 := by
  simp only [transformVertex, applyGlobalScale, divPrimitive, vdiv, vscale,
    Vec3.mk.injEq, Real.cos_zero, Real.sin_zero]
  norm_num

/-- Claim C9, amended: the pipeline is linear in the global scale factor in
the sense that transforming under global scale k equals k times the
transform under global scale 1 of the same primitive; dividing the
primitive's position and scale by k and multiplying the scale-1 result by k
instead reproduces the scale-1 transform (not the scale-k one). -/
theorem transform_linear_in_global_scale (v : Vec3) (p : Primitive) (k : ℝ)
    (hk : 0 < k) :
    transformVertex v (applyGlobalScale k p)
        = vscale (transformVertex v (applyGlobalScale 1 p)) k
    ∧ vscale (transformVertex v (applyGlobalScale 1 (divPrimitive p k))) k
        = transformVertex v (applyGlobalScale 1 p) := by
  have hk0 : k ≠ 0 := ne_of_gt hk
  constructor
  · simp only [transformVertex, applyGlobalScale, vscale]
    apply vec3_eq <;> ring
  · simp only [transformVertex, applyGlobalScale, divPrimitive, vdiv, vscale]
    apply vec3_eq <;> (field_simp <;> ring)

/-- Witness for the amended C9 at the concrete vertex (1,2,3), a posed
primitive and k = 2. -/
theorem transform_linear_in_global_scale_witness :
    transformVertex ⟨1, 2, 3⟩
        (applyGlobalScale 2 ⟨"SPHERE", ⟨4, 5, 6⟩, ⟨1, 2, 3⟩, ⟨7, 8, 9⟩, "#abc"⟩)
        = vscale (transformVertex ⟨1, 2, 3⟩
            (applyGlobalScale 1 ⟨"SPHERE", ⟨4, 5, 6⟩, ⟨1, 2, 3⟩, ⟨7, 8, 9⟩, "#abc"⟩)) 2
    ∧ vscale (transformVertex ⟨1, 2, 3⟩
          (applyGlobalScale 1
            (divPrimitive ⟨"SPHERE", ⟨4, 5, 6⟩, ⟨1, 2, 3⟩, ⟨7, 8, 9⟩, "#abc"⟩ 2))) 2
        = transformVertex ⟨1, 2, 3⟩
            (applyGlobalScale 1 ⟨"SPHERE", ⟨4, 5, 6⟩, ⟨1, 2, 3⟩, ⟨7, 8, 9⟩, "#abc"⟩) :=
  transform_linear_in_global_scale ⟨1, 2, 3⟩
    ⟨"SPHERE", ⟨4, 5, 6⟩, ⟨1, 2, 3⟩, ⟨7, 8, 9⟩, "#abc"⟩ 2 (by norm_num)

/-- Claim C2, evaluated at the failing input: for the unrecognized kind
"TORUS" the tessellator raises no error at all; it silently returns the
two-corner fallback geometry with an empty face list. -/
theorem getPrimitiveGeometry_fallback_silent :
    (getPrimitiveGeometry ⟨"TORUS", ⟨0, 0, 0⟩, ⟨0, 0, 0⟩, ⟨1, 1, 1⟩, "#ffffff"⟩).faces = []
    ∧ (getPrimitiveGeometry
        ⟨"TORUS", ⟨0, 0, 0⟩, ⟨0, 0, 0⟩, ⟨1, 1, 1⟩, "#ffffff"⟩).vertices.length = 2 := by
  constructor <;>
    simp [getPrimitiveGeometry, fallbackUnit]

/-- Claim C1, amended: on a valid confirm the new global scale is
L / (d / old_scale), so a raw distance d0 measured at scale 1 with target
2 * d0 yields scale 2, and re-measuring the same two vertices at scale 2
(distance 2 * d0) with target d0 re-derives scale 1 (not 0.5): calibration
never compounds the previous factor. -/
theorem applyCalibration_rederives_scale (s : CalState) (L : ℝ)
    (a b c d : Vec3) (d0 : ℝ)
    (hin : s.userInput = some L) (hL : 0 < L) (hd : currentDistance s ≠ 0)
    (hab : dist3 a b = d0) (hd0 : 0 < d0) (hcd : dist3 c d = 2 * d0) :
    (applyCalibration s).globalScale = L / (currentDistance s / s.globalScale)
    ∧ (applyCalibration ⟨1, [a, b], some (2 * d0), true⟩).globalScale = 2
    ∧ (applyCalibration ⟨2, [c, d], some d0, true⟩).globalScale = 1 := by
  have hd0' : d0 ≠ 0 := ne_of_gt hd0
  refine ⟨?_, ?_, ?_⟩
  · have hcond : ¬(L ≤ 0 ∨ currentDistance s = 0) := by
      push_neg
      exact ⟨hL, hd⟩
    simp only [applyCalibration, hin, if_neg hcond]
  · have hc : currentDistance ⟨1, [a, b], some (2 * d0), true⟩ = d0 := by
      simp [currentDistance, hab]
    have hcond : ¬(2 * d0 ≤ 0 ∨ d0 = 0) := by
      push_neg
      exact ⟨by linarith, hd0'⟩
    simp only [applyCalibration, hc, if_neg hcond]
    rw [div_one]
    exact mul_div_cancel_right₀ 2 hd0'
  · have hc : currentDistance ⟨2, [c, d], some d0, true⟩ = 2 * d0 := by
      simp [currentDistance, hcd]
    have hcond : ¬(d0 ≤ 0 ∨ 2 * d0 = 0) := by
      push_neg
      exact ⟨hd0, ne_of_gt (by linarith)⟩
    simp only [applyCalibration, hc, if_neg hcond]
    rw [show (2 : ℝ) * d0 / 2 = d0 from by ring, div_self hd0']

/-- Witness for the amended C1: picking (0,0,0) and (0,0,1) (distance 1) at
scale 1 and entering 2 gives scale 2; picking (0,0,0) and (0,0,2) (the same
vertices re-measured at scale 2, distance 2) and entering 1 gives scale 1. -/
theorem applyCalibration_rederives_scale_witness :
    (applyCalibration ⟨1, [⟨0, 0, 0⟩, ⟨0, 0, 1⟩], some 5, true⟩).globalScale
        = 5 / (currentDistance ⟨1, [⟨0, 0, 0⟩, ⟨0, 0, 1⟩], some 5, true⟩ / 1)
    ∧ (applyCalibration ⟨1, [⟨0, 0, 0⟩, ⟨0, 0, 1⟩], some (2 * 1), true⟩).globalScale = 2
    ∧ (applyCalibration ⟨2, [⟨0, 0, 0⟩, ⟨0, 0, 2⟩], some 1, true⟩).globalScale = 1 :=
  applyCalibration_rederives_scale ⟨1, [⟨0, 0, 0⟩, ⟨0, 0, 1⟩], some 5, true⟩ 5
    ⟨0, 0, 0⟩ ⟨0, 0, 1⟩ ⟨0, 0, 0⟩ ⟨0, 0, 2⟩ 1 rfl (by norm_num)
    (by simp [currentDistance, dist3])
    (by simp [dist3])
    one_pos
    (by
      simp only [dist3]
      norm_num
      rw [show (4 : ℝ) = 2 ^ 2 from by norm_num,
        Real.sqrt_sq (by norm_num : (0 : ℝ) ≤ 2)])

/-- Counterexample to claim C1 as stated: calibrating (0,0,0)-(0,0,1) at
scale 1 with target 2 yields scale 2, and re-calibrating the same two
vertices (now measured at distance 2) with target 1 yields scale 1, not the
0.5 the claim asserts. -/
theorem applyCalibration_second_run_not_half :
    (applyCalibration ⟨1, [⟨0, 0, 0⟩, ⟨0, 0, 1⟩], some 2, true⟩).globalScale = 2
    ∧ (applyCalibration ⟨2, [⟨0, 0, 0⟩, ⟨0, 0, 2⟩], some 1, true⟩).globalScale = 1
    ∧ (applyCalibration ⟨2, [⟨0, 0, 0⟩, ⟨0, 0, 2⟩], some 1, true⟩).globalScale
        ≠ 0.5 := by
  have h1 : dist3 ⟨0, 0, 0⟩ ⟨0, 0, 1⟩ = 1 := by simp [dist3]
  have h2 : dist3 ⟨0, 0, 0⟩ ⟨0, 0, 2⟩ = 2 := by
    simp only [dist3]
    norm_num
    rw [show (4 : ℝ) = 2 ^ 2 from by norm_num,
      Real.sqrt_sq (by norm_num : (0 : ℝ) ≤ 2)]
  have hc1 : currentDistance ⟨1, [⟨0, 0, 0⟩, ⟨0, 0, 1⟩], some 2, true⟩ = 1 := by
    simp [currentDistance, h1]
  have hc2 : currentDistance ⟨2, [⟨0, 0, 0⟩, ⟨0, 0, 2⟩], some 1, true⟩ = 2 := by
    simp [currentDistance, h2]
  have e1 : (applyCalibration ⟨1, [⟨0, 0, 0⟩, ⟨0, 0, 1⟩], some 2, true⟩).globalScale
      = 2 := by
    have hcond : ¬((2 : ℝ) ≤ 0
        ∨ currentDistance ⟨1, [⟨0, 0, 0⟩, ⟨0, 0, 1⟩], some 2, true⟩ = 0) := by
      rw [hc1]
      norm_num
    simp only [applyCalibration, if_neg hcond, hc1]
    norm_num
  have e2 : (applyCalibration ⟨2, [⟨0, 0, 0⟩, ⟨0, 0, 2⟩], some 1, true⟩).globalScale
      = 1 := by
    have hcond : ¬((1 : ℝ) ≤ 0
        ∨ currentDistance ⟨2, [⟨0, 0, 0⟩, ⟨0, 0, 2⟩], some 1, true⟩ = 0) := by
      rw [hc2]
      norm_num
    simp only [applyCalibration, if_neg hcond, hc2]
    norm_num
  refine ⟨e1, e2, ?_⟩
  rw [e2]
  norm_num

/-- Claim C5: a confirm with a non-numeric target (parseFloat giving NaN),
a non-positive target, or a zero measured distance returns the state
unchanged: the global scale factor and the recorded points are exactly what
they were. -/
theorem applyCalibration_rejects_unchanged (s : CalState)
    (h : s.userInput = none ∨ (∃ L, s.userInput = some L ∧ L ≤ 0)
      ∨ currentDistance s = 0) :
    applyCalibration s = s := by
  rcases h with h | ⟨L, hL, hle⟩ | h
  · simp [applyCalibration, h]
  · simp only [applyCalibration, hL]
    rw [if_pos (Or.inl hle)]
  · cases hu : s.userInput with
    | none => simp [applyCalibration, hu]
    | some L =>
      simp only [applyCalibration, hu]
      rw [if_pos (Or.inr h)]

/-- Witness for C5: rejecting a confirm with an empty (non-numeric) input
leaves the concrete state untouched. -/
theorem applyCalibration_rejects_unchanged_witness :
    applyCalibration ⟨3, [⟨1, 1, 1⟩], none, true⟩ = ⟨3, [⟨1, 1, 1⟩], none, true⟩ :=
  applyCalibration_rejects_unchanged ⟨3, [⟨1, 1, 1⟩], none, true⟩ (Or.inl rfl)

/-- Claim C3, amended: a pick during calibration records the raw
ray-surface intersection point exactly as given (replacing both points when
two are already recorded, appending otherwise); no snapping to a nearby
mesh vertex is performed at any threshold, and the global scale is
untouched. -/
theorem handlePointSelect_records_raw (s : CalState) (point : Vec3)
    (h : s.isMeasureMode = true) :
    (handlePointSelect s point).points
        = (if 2 ≤ s.points.length then [point] else s.points ++ [point])
    ∧ (handlePointSelect s point).globalScale = s.globalScale := by
  simp only [handlePointSelect, h]
  rw [if_neg (by decide : ¬(true = false))]
  constructor
  · split <;> rfl
  · split <;> rfl

/-- Witness for the amended C3 at a concrete empty-selection state. -/
theorem handlePointSelect_records_raw_witness :
    (handlePointSelect ⟨1, [], none, true⟩ ⟨1, 2, 3⟩).points
        = (if 2 ≤ ([] : List Vec3).length then [(⟨1, 2, 3⟩ : Vec3)]
           else ([] : List Vec3) ++ [(⟨1, 2, 3⟩ : Vec3)])
    ∧ (handlePointSelect ⟨1, [], none, true⟩ ⟨1, 2, 3⟩).globalScale = 1 :=
  handlePointSelect_records_raw ⟨1, [], none, true⟩ ⟨1, 2, 3⟩ rfl

/-- Counterexample to claim C3 as stated: in measure mode, picking the raw
surface point (0.5, 0.5, 0.49) on the unit demo box records exactly that
point, although the already-transformed mesh vertex (0.5, 0.5, 0.5) lies
within 0.01 scaled world units and the recorded point is no mesh vertex at
all: no snapping happens. -/
theorem handlePointSelect_no_snapping :
    (handlePointSelect ⟨1, [], none, true⟩ ⟨0.5, 0.5, 0.49⟩).points
        = [(⟨0.5, 0.5, 0.49⟩ : Vec3)]
    ∧ (⟨0.5, 0.5, 0.5⟩ : Vec3) ∈ viewerBoxVertices boxP 1
    ∧ dist3 ⟨0.5, 0.5, 0.49⟩ ⟨0.5, 0.5, 0.5⟩ = 0.01
    ∧ (⟨0.5, 0.5, 0.49⟩ : Vec3) ∉ viewerBoxVertices boxP 1 := by
  refine ⟨by simp [handlePointSelect], ?_, ?_, ?_⟩
  · have hv : viewerWorldVertex boxP 1 ⟨0.5, 0.5, 0.5⟩ = ⟨0.5, 0.5, 0.5⟩ := by
      simp only [viewerWorldVertex, boxP, rotXv, rotYv, rotZv, vmul, vadd,
        vscale]
      norm_num
    refine List.mem_map.mpr ⟨⟨0.5, 0.5, 0.5⟩, ?_, hv⟩
    simp [boxUnit]
  · simp only [dist3]
    rw [show ((0.5 : ℝ) - 0.5) * ((0.5 : ℝ) - 0.5)
          + ((0.5 : ℝ) - 0.5) * ((0.5 : ℝ) - 0.5)
          + ((0.49 : ℝ) - 0.5) * ((0.49 : ℝ) - 0.5) = (0.01 : ℝ) ^ 2
        from by norm_num]
    exact Real.sqrt_sq (by norm_num)
  · simp only [viewerBoxVertices, boxUnit, viewerWorldVertex, boxP, rotXv,
      rotYv, rotZv, vmul, vadd, vscale, List.mem_map, List.mem_cons,
      List.not_mem_nil, Vec3.mk.injEq]
    norm_num

lemma vertTotal_cons (p : Primitive) (ps : List Primitive) :
    vertTotal (p :: ps) = geomVertCount p + vertTotal ps := by
  simp [vertTotal]

lemma objFaceLines_append (a b : List ObjLine) :
    objFaceLines (a ++ b) = objFaceLines a ++ objFaceLines b := by
  induction a with
  | nil => rfl
  | cons x a ih => cases x <;> simp [objFaceLines, ih]

lemma objFaceLines_map_vtx (l : List Vec3) :
    objFaceLines (l.map ObjLine.vtx) = [] := by
  induction l with
  | nil => rfl
  | cons v l ih => simp [objFaceLines, ih]

lemma objFaceLines_map_face (l : List (List ℕ)) (off : ℕ) :
    objFaceLines (l.map (fun f => ObjLine.face (objFaceIdx f off)))
      = l.map (fun f => objFaceIdx f off) := by
  induction l with
  | nil => rfl
  | cons f l ih => simp [objFaceLines, ih]

lemma objBody_cons (p : Primitive) (rest : List Primitive) (i off : ℕ) :
    objBody (p :: rest) i off
      = (ObjLine.group ("Pieza_" ++ toString (i + 1) ++ "_" ++ p.type)
          :: (getPrimitiveGeometry p).vertices.map ObjLine.vtx)
        ++ (getPrimitiveGeometry p).faces.map
            (fun f => ObjLine.face (objFaceIdx f off))
        ++ objBody rest (i + 1) (off + geomVertCount p) :=
  rfl

lemma objBody_append (ps qs : List Primitive) (i off : ℕ) :
    objBody (ps ++ qs) i off
      = objBody ps i off ++ objBody qs (i + ps.length) (off + vertTotal ps) := by
  induction ps generalizing i off with
  | nil => simp [objBody, vertTotal]
  | cons p ps ih =>
    rw [List.cons_append, objBody_cons, objBody_cons, ih,
      show i + (p :: ps).length = i + 1 + ps.length from by simp; omega,
      vertTotal_cons,
      show off + (geomVertCount p + vertTotal ps)
        = off + geomVertCount p + vertTotal ps from by omega]
    simp [List.append_assoc]

lemma objFaceLines_objBody_cons (p : Primitive) (rest : List Primitive)
    (i off : ℕ) :
    objFaceLines (objBody (p :: rest) i off)
      = (getPrimitiveGeometry p).faces.map (fun f => objFaceIdx f off)
        ++ objFaceLines (objBody rest (i + 1) (off + geomVertCount p)) := by
  rw [objBody_cons, objFaceLines_append, objFaceLines_append]
  simp [objFaceLines, objFaceLines_map_vtx, objFaceLines_map_face]

lemma objFaceLines_objBody_length (ps : List Primitive) (i off : ℕ) :
    (objFaceLines (objBody ps i off)).length
      = (ps.map (fun p => (getPrimitiveGeometry p).faces.length)).sum := by
  induction ps generalizing i off with
  | nil => rfl
  | cons p ps ih => simp [objFaceLines_objBody_cons, ih]

lemma dxfEntities_length (ps : List Primitive) (idx : ℕ) :
    (dxfEntities ps idx).length
      = (ps.map (fun p => (getPrimitiveGeometry p).faces.length)).sum := by
  induction ps generalizing idx with
  | nil => rfl
  | cons p ps ih => simp [dxfEntities, ih]

lemma dxfLayerTable_length (ps : List Primitive) (idx : ℕ) :
    (dxfLayerTable ps idx).length = ps.length := by
  induction ps generalizing idx with
  | nil => rfl
  | cons p ps ih => simp [dxfLayerTable, ih]

lemma dxfLayerTable_append (ps qs : List Primitive) (idx : ℕ) :
    dxfLayerTable (ps ++ qs) idx
      = dxfLayerTable ps idx ++ dxfLayerTable qs (idx + ps.length) := by
  induction ps generalizing idx with
  | nil => simp [dxfLayerTable]
  | cons p ps ih =>
    rw [List.cons_append, dxfLayerTable, dxfLayerTable, ih,
      show idx + (p :: ps).length = idx + 1 + ps.length from by simp; omega,
      List.cons_append]

lemma dxfEntities_append (ps qs : List Primitive) (idx : ℕ) :
    dxfEntities (ps ++ qs) idx
      = dxfEntities ps idx ++ dxfEntities qs (idx + ps.length) := by
  induction ps generalizing idx with
  | nil => simp [dxfEntities]
  | cons p ps ih =>
    rw [List.cons_append, dxfEntities, dxfEntities, ih,
      show idx + (p :: ps).length = idx + 1 + ps.length from by simp; omega]
    simp [List.append_assoc]

/-- Claim C6: OBJ face lines carry 1-based global indices.  For a primitive
at any position in the model, each written face index is its local index
plus 1 plus the total vertex count of all earlier primitives; in the
two-box model every face index of the second box (9..16) exceeds 8. -/
theorem exportToOBJ_global_indices :
    (∀ ps (p : Primitive) rest,
      objFaceLines (exportToOBJ ⟨ps ++ p :: rest⟩)
        = objFaceLines (objBody ps 0 1)
          ++ (getPrimitiveGeometry p).faces.map
              (fun f => objFaceIdx f (1 + vertTotal ps))
          ++ objFaceLines (objBody rest (ps.length + 1)
              (1 + vertTotal ps + geomVertCount p)))
    ∧ objFaceLines (exportToOBJ ⟨[boxP, boxP]⟩)
        = [[1, 2, 3, 4], [5, 8, 7, 6], [1, 5, 6, 2], [2, 6, 7, 3], [3, 7, 8, 4],
           [4, 8, 5, 1], [9, 10, 11, 12], [13, 16, 15, 14], [9, 13, 14, 10],
           [10, 14, 15, 11], [11, 15, 16, 12], [12, 16, 13, 9]] := by
  constructor
  · intro ps p rest
    simp only [exportToOBJ, objFaceLines]
    rw [objBody_append, objFaceLines_append, objFaceLines_objBody_cons]
    simp [List.append_assoc]
  · rfl

/-- Claim C8: the OBJ exporter writes exactly one face line and the DXF
exporter exactly one 3DFACE entity per tessellated face, so both counts
equal the sum over the model's primitives of their face counts. -/
theorem export_face_counts (m : ModelData) :
    (objFaceLines (exportToOBJ m)).length
        = (m.primitives.map (fun p => (getPrimitiveGeometry p).faces.length)).sum
    ∧ (exportToDXF m).entities.length
        = (m.primitives.map (fun p => (getPrimitiveGeometry p).faces.length)).sum := by
  constructor
  · simp only [exportToOBJ, objFaceLines]
    exact objFaceLines_objBody_length m.primitives 0 1
  · exact dxfEntities_length m.primitives 0

/-- Claim C7, amended: the DXF TABLES section holds exactly one LAYER
record per primitive, the record of the primitive at position ps.length
being named PIEZA_(ps.length + 1) — but carrying the fixed color 7, not the
primitive's color; the primitive's hexToACI-mapped color is instead carried
by each of its 3DFACE entities, which are tagged with its layer name. -/
theorem exportToDXF_layers_and_tagging (ps : List Primitive) (p : Primitive)
    (rest : List Primitive) :
    (exportToDXF ⟨ps ++ p :: rest⟩).layers.length = ps.length + 1 + rest.length
    ∧ (exportToDXF ⟨ps ++ p :: rest⟩).layers.getD ps.length ⟨"", 0, 0, ""⟩
        = ⟨"PIEZA_" ++ toString (ps.length + 1), 64, 7, "CONTINUOUS"⟩
    ∧ (exportToDXF ⟨ps ++ p :: rest⟩).entities
        = dxfEntities ps 0
          ++ (getPrimitiveGeometry p).faces.map (fun f =>
              create3DFace
                ((getPrimitiveGeometry p).vertices.getD (f.getD 0 0) vzero)
                ((getPrimitiveGeometry p).vertices.getD (f.getD 1 0) vzero)
                ((getPrimitiveGeometry p).vertices.getD (f.getD 2 0) vzero)
                (if 3 < f.length then
                  some ((getPrimitiveGeometry p).vertices.getD (f.getD 3 0) vzero)
                 else none)
                ("PIEZA_" ++ toString (ps.length + 1)) (hexToACI p.color))
          ++ dxfEntities rest (ps.length + 1) := by
  refine ⟨?_, ?_, ?_⟩
  · simp only [exportToDXF]
    rw [dxfLayerTable_length]
    simp
    omega
  · simp only [exportToDXF]
    have hlen : (dxfLayerTable ps 0).length = ps.length := dxfLayerTable_length ps 0
    rw [dxfLayerTable_append, List.getD_append_right _ _ _ _ hlen.le, hlen,
      Nat.sub_self]
    simp [dxfLayerTable]
  · simp only [exportToDXF]
    rw [dxfEntities_append]
    simp only [Nat.zero_add]
    rw [show dxfEntities (p :: rest) ps.length
          = (getPrimitiveGeometry p).faces.map (fun f =>
              create3DFace
                ((getPrimitiveGeometry p).vertices.getD (f.getD 0 0) vzero)
                ((getPrimitiveGeometry p).vertices.getD (f.getD 1 0) vzero)
                ((getPrimitiveGeometry p).vertices.getD (f.getD 2 0) vzero)
                (if 3 < f.length then
                  some ((getPrimitiveGeometry p).vertices.getD (f.getD 3 0) vzero)
                 else none)
                ("PIEZA_" ++ toString (ps.length + 1)) (hexToACI p.color))
            ++ dxfEntities rest (ps.length + 1) from rfl]
    rw [List.append_assoc]

/-- Counterexample to claim C7 as stated: for a one-primitive model whose
box is colored #ff0000 (AutoCAD Color Index 1), the single LAYER record is
named PIEZA_1 but carries color 7, not the primitive's mapped color. -/
theorem exportToDXF_layer_color_fixed :
    (exportToDXF ⟨[redBoxP]⟩).layers
        = [⟨"PIEZA_1", 64, 7, "CONTINUOUS"⟩]
    ∧ hexToACI "#ff0000" = 1
    ∧ ((exportToDXF ⟨[redBoxP]⟩).layers.getD 0 ⟨"", 0, 0, ""⟩).colorNum
        ≠ hexToACI redBoxP.color := by
  refine ⟨rfl, by decide, by decide⟩

/-- Claim C10: every index in every face group returned by the tessellator
is a valid index into its returned vertex list, for all four kinds and for
the fallback branch alike, so neither exporter ever reads a vertex out of
bounds. -/
theorem getPrimitiveGeometry_indices_bound (p : Primitive) :
    ∀ f ∈ (getPrimitiveGeometry p).faces, ∀ i ∈ f,
      i < (getPrimitiveGeometry p).vertices.length := by
  unfold getPrimitiveGeometry
  split_ifs
  · show ∀ f ∈ boxFaces, ∀ i ∈ f, i < 8
    decide
  · show ∀ f ∈ cylFaces, ∀ i ∈ f, i < 34
    decide
  · show ∀ f ∈ pyrFaces, ∀ i ∈ f, i < 5
    decide
  · show ∀ f ∈ sphFaces, ∀ i ∈ f, i < 117
    decide
  · simp

/-- Witness for C10 at the demo box and the index 3 of its first face. -/
theorem getPrimitiveGeometry_indices_bound_witness :
    3 < (getPrimitiveGeometry boxP).vertices.length :=
  getPrimitiveGeometry_indices_bound boxP [0, 1, 2, 3]
    (by simp [getPrimitiveGeometry, boxP, boxFaces]) 3 (by simp)

end GeoImage
